import Mathlib

/-!
Verification of the ClaudeSynth repository (a DSPy-based context synthesizer
CLI) against its natural-language specification.  The Python sources under
`src/dspy_synthesizer/` are shallowly embedded below: pure logic becomes Lean
functions, network and file effects become explicit outcome parameters, and
the process-wide DSPy settings slot becomes explicit state passing.
-/

namespace ClaudeSynth

/-! ## Basic string machinery (for Python substring tests, `k in m`) -/

/-- The characters of the first list begin the second list. -/
def matchesAt : List Char → List Char → Bool
  | [], _ => true
  | _ :: _, [] => false
  | a :: as, b :: bs => a == b && matchesAt as bs

/-- The first list occurs as a contiguous run inside the second
(Python `needle in hay`). -/
def hasSub (needle : List Char) : List Char → Bool
  | [] => needle.isEmpty
  | b :: bs => matchesAt needle (b :: bs) || hasSub needle bs

/-- Python `s.startswith(pre)`. -/
def strStarts (s pre : String) : Bool :=
  matchesAt pre.toList s.toList

/-- Drop leading whitespace characters. -/
def dropLeading : List Char → List Char
  | [] => []
  | c :: cs => if c.isWhitespace then dropLeading cs else c :: cs

/-- Python `s.strip()`: remove leading and trailing whitespace. -/
def pyStrip (s : String) : String :=
  ⟨(dropLeading (dropLeading s.toList).reverse).reverse⟩

/-- Python `s.lower()`. -/
def pyLower (s : String) : String :=
  ⟨s.toList.map Char.toLower⟩

/-- Python truthiness of an optional string: `None` and `""` are falsy. -/
def py_falsy : Option String → Bool
  | none => true
  | some s => s == ""

/-! ## Model catalog (ollama_support.py, `OllamaContextManager.RECOMMENDED_MODELS`) -/

/-- Catalog metadata for one recommended local model. -/
structure ModelInfo where
  description : String
  strengths : List String
  size : String

/-- `OllamaContextManager.RECOMMENDED_MODELS`: the static catalog, in declared
preference order (Python dict insertion order). -/
def RECOMMENDED_MODELS : List (String × ModelInfo) :=
  [("deepseek-coder:6.7b",
    ⟨"Best for code understanding and context generation",
     ["Code analysis", "Technical documentation", "Architecture understanding"], "3.8GB"⟩),
   ("qwen3:8b",
    ⟨"Strong general reasoning and context synthesis",
     ["Multi-language support", "Context understanding", "Documentation"], "5.2GB"⟩),
   ("llama3:8b-instruct-q4_0",
    ⟨"Excellent instruction following for structured output",
     ["Instruction following", "Structured output", "Context generation"], "4.7GB"⟩),
   ("mistral-openorca:7b-q4_K_M",
    ⟨"Good balance of performance and resource usage",
     ["Reasoning", "Context understanding", "Markdown generation"], "4.4GB"⟩),
   ("opencoder:8b",
    ⟨"Specialized for coding tasks and context",
     ["Code understanding", "API documentation", "Context synthesis"], "4.7GB"⟩)]

/-- The catalog identifiers in preference order (`RECOMMENDED_MODELS.keys()`). -/
def RECOMMENDED_MODELS_keys : List String := RECOMMENDED_MODELS.map Prod.fst

/-- The fixed coding-keyword set of `get_best_available_model`. -/
def coding_keywords : List String :=
  ["coder", "code", "deepseek", "llama3", "qwen", "mistral"]

/-- An installed model identifier "looks suitable":
`any(keyword in m.lower() for keyword in coding_keywords)`. -/
def looks_suitable (m : String) : Bool :=
  coding_keywords.any fun k => hasSub k.toList m.toLower.toList

/-- `OllamaContextManager.get_best_available_model`, parameterised over the
catalog walked by the first loop (the source hardwires
`RECOMMENDED_MODELS.keys()`) and over the server-reported installed list
(the result of `list_available_models()`, a network effect). -/
def get_best_available_model_from (catalog available : List String) : Option String :=
  match catalog.find? (fun m => available.contains m) with
  | some m => some m
  | none =>
    match available.filter looks_suitable with
    | c :: _ => some c
    | [] =>
      match available with
      | a :: _ => some a
      | [] => none

/-- `OllamaContextManager.get_best_available_model`, with the source catalog. -/
def get_best_available_model (available : List String) : Option String :=
  get_best_available_model_from RECOMMENDED_MODELS_keys available

/-! ## Backend descriptor and the process-wide DSPy settings slot -/

/-- Which generation backend a configured model object targets. -/
inductive BackendKind where
  | remote : BackendKind
  | localServer : BackendKind
deriving DecidableEq

/-- The language-model object installed by `dspy.settings.configure(lm=...)`. -/
structure BackendConfig where
  kind : BackendKind
  model : String
  maxTokens : Nat
deriving DecidableEq

/-- The mutable state an activation attempt touches: the manager flag
`self.configured` and the process-wide `dspy.settings` active-lm slot. -/
structure DspyState where
  configured : Bool
  lm : Option BackendConfig
deriving DecidableEq

/-! ## Backend prober (ollama_support.py) -/

/-- Outcome of the `GET <base_url>/api/tags` request: an exception
(connection error, timeout, malformed JSON), or a status code together
with the parsed model-name list when the body parses. -/
inductive TagsOutcome where
  | exn : TagsOutcome
  | ok : Nat → Option (List String) → TagsOutcome

/-- `OllamaContextManager.check_ollama_available`: status 200 means reachable;
every exception is swallowed and reported as `false`. -/
def check_ollama_available : TagsOutcome → Bool
  | .exn => false
  | .ok status _ => status == 200

/-- `OllamaContextManager.list_available_models`: the `name` fields of the
listing on a 200 response; `[]` on any other status, on a request exception,
or when the JSON body fails to parse (the exception is swallowed). -/
def list_available_models : TagsOutcome → List String
  | .exn => []
  | .ok status body =>
    if status == 200 then
      match body with
      | some names => names
      | none => []
    else []

/-! ## Local-backend activation (`OllamaContextManager.setup_model`) -/

/-- One install-instruction line printed per catalog entry:
`ollama pull <model>  # <description>`. -/
def install_line (p : String × ModelInfo) : String :=
  "   ollama pull " ++ p.1 ++ "  # " ++ p.2.description

/-- Result of `setup_model`: the returned boolean, the state after the call,
and the lines printed (success-path metadata echo elided). -/
structure SetupResult where
  ok : Bool
  state : DspyState
  prints : List String
deriving DecidableEq

/-- `OllamaContextManager.setup_model`.  Network effects are parameters:
`serverReachable` is the result of `check_ollama_available()`, `available`
the result of `list_available_models()`, and `ctorOk` whether the
`OllamaModel` construction plus `dspy.settings.configure` call in the
`try` block completes (the external configure call is treated as atomic). -/
def setup_model (serverReachable : Bool) (available : List String) (ctorOk : Bool)
    (model_name : Option String) (max_tokens : Nat) (s : DspyState) : SetupResult :=
  if serverReachable = false then
    ⟨false, s, ["❌ Ollama is not running. Start it with: ollama serve"]⟩
  else
    match (if py_falsy model_name then get_best_available_model available else model_name) with
    | none =>
      ⟨false, s,
        "❌ No suitable Ollama models found" :: "💡 Install a recommended model:" ::
          RECOMMENDED_MODELS.map install_line⟩
    | some m =>
      if m == "" then
        ⟨false, s,
          "❌ No suitable Ollama models found" :: "💡 Install a recommended model:" ::
            RECOMMENDED_MODELS.map install_line⟩
      else if ctorOk then
        ⟨true, ⟨true, some ⟨.localServer, m, max_tokens⟩⟩,
          ["✅ DSPy configured with Ollama model: " ++ m]⟩
      else
        ⟨false, s, ["❌ Ollama model setup failed"]⟩

/-! ## Remote-backend activation (`DSPyContextManager._setup_anthropic_model`) -/

/-- Result of `_setup_anthropic_model`: the Python function returns `True` on
success and, on the exception path, falls off the end returning `None`
(modelled as `none`); `constructed` records whether a `dspy.Anthropic`
backend object was built at all. -/
structure AnthropicSetupResult where
  result : Option Bool
  state : DspyState
  constructed : Option BackendConfig
  prints : List String
deriving DecidableEq

/-- `DSPyContextManager._setup_anthropic_model`.  `api_key` is
`os.environ.get("ANTHROPIC_API_KEY")`; a missing (or empty, hence falsy) key
raises `ValueError` before any backend object is constructed, the exception
is caught, a message is printed, and the function returns `None`. -/
def setup_anthropic_model (api_key : Option String) (model_name : String)
    (max_tokens : Nat) (s : DspyState) : AnthropicSetupResult :=
  if py_falsy api_key then
    ⟨none, s, none,
      ["❌ Anthropic setup failed: ANTHROPIC_API_KEY environment variable required"]⟩
  else
    let m : BackendConfig := ⟨.remote, model_name, max_tokens⟩
    ⟨some true, ⟨true, some m⟩, some m, ["✅ DSPy configured with " ++ model_name]⟩

/-! ## DSPy-integrated local activation (`DSPyContextManager._setup_ollama_model`) -/

/-- Result of `_setup_ollama_model`. -/
structure DspyOllamaResult where
  result : Bool
  chosenModel : String
  state : DspyState
deriving DecidableEq

/-- `DSPyContextManager._setup_ollama_model`.  Note that this activation path
takes no installed-model listing at all: the source computes
`model_name = ollama_model or "deepseek-coder:6.7b"` and never consults the
prober.  `ctorOk` is whether `dspy.LM(...)` plus the configure call succeed. -/
def dspy_setup_ollama_model (ollama_model : Option String) (max_tokens : Nat)
    (ctorOk : Bool) (s : DspyState) : DspyOllamaResult :=
  let m := match ollama_model with
    | some v => if v == "" then "deepseek-coder:6.7b" else v
    | none => "deepseek-coder:6.7b"
  if ctorOk then
    ⟨true, m, ⟨true, some ⟨.localServer, "ollama/" ++ m, max_tokens⟩⟩⟩
  else
    ⟨false, m, s⟩

/-! ## Simple-mode generation (`generate_context_simple` and its CLI wrapper) -/

/-- Outcome of the `POST /api/generate` call in `generate_context_simple`:
an exception (network error, timeout, malformed JSON), or a status code with
the optional `response` field of the parsed body. -/
inductive HttpOutcome where
  | exn : String → HttpOutcome
  | ok : Nat → Option String → HttpOutcome

/-- `generate_context_simple` (ollama_support.py): on status 200 returns
`result.get("response", "")` verbatim, on any other status the string
`"Error: HTTP <status>"`, and on an exception `"Error: <e>"`. -/
def generate_context_simple (outcome : HttpOutcome) : String :=
  match outcome with
  | .exn e => "Error: " ++ e
  | .ok status resp =>
    if status == 200 then resp.getD ""
    else "Error: HTTP " ++ toString status

/-- What `_generate_context_simple_mode` does with the generated string:
whether it reports success, and the content written to the output file
(none when no write happens). -/
structure SimpleModeResult where
  success : Bool
  written : Option String
deriving DecidableEq

/-- `cli._generate_context_simple_mode` after the backend call: a context
starting with `"Error:"` aborts before any write; anything else — including
the empty string — is written to the output file and reported as success. -/
def generate_context_simple_mode (outcome : HttpOutcome) : SimpleModeResult :=
  if strStarts (generate_context_simple outcome) "Error:" then ⟨false, none⟩
  else ⟨true, some (generate_context_simple outcome)⟩

/-! ## DSPy-mode generation command (`cli.generate_context`) -/

/-- The workflow result: `GenerationResult` carries the markdown text. -/
structure GenerationResult where
  markdown_context : String
deriving DecidableEq

/-- `cli.generate_context`, DSPy path: `gen` is the outcome of the external
`synthesizer.forward(...)` call (an exception or a result).  Returns the
command success flag and the content written to the output file, if any;
the write happens only after `forward` has returned. -/
def generate_context_dspy_mode (setupOk : Bool) (gen : Except String GenerationResult) :
    Bool × Option String :=
  if setupOk = false then (false, none)
  else
    match gen with
    | .error _ => (false, none)
    | .ok r => (true, some r.markdown_context)

/-! ## Interactive loop (`cli.interactive_mode`) -/

/-- What the blocking `input()` call for the task description delivers:
a line, end-of-input (Python raises `EOFError`), or `KeyboardInterrupt`. -/
inductive InputEvent where
  | line : String → InputEvent
  | eofEvent : InputEvent
  | interrupt : InputEvent

/-- Whether one iteration of the `while True` body leaves the loop. -/
inductive IterationOutcome where
  | exitLoop : IterationOutcome
  | continueLoop : IterationOutcome
deriving DecidableEq

/-- One iteration of the `while True` body of `cli.interactive_mode`, given
the task-input event and the outcome of the generation call.
`KeyboardInterrupt` hits the dedicated handler and breaks; `EOFError` from
`input()` is an ordinary `Exception`, so it falls into the generic handler,
which prints and continues; a quit line breaks; an empty line continues;
a generation exception is caught, reported, and the loop continues. -/
def interactive_iteration (taskInput : InputEvent)
    (gen : Except String GenerationResult) : IterationOutcome :=
  match taskInput with
  | .interrupt => .exitLoop
  | .eofEvent => .continueLoop
  | .line raw =>
    if pyLower (pyStrip raw) == "quit" then .exitLoop
    else if pyStrip raw == "" then .continueLoop
    else
      match gen with
      | .error _ => .continueLoop
      | .ok _ => .continueLoop

/-! ## Persisted configuration (config.py) -/

/-- The persisted configuration record. -/
structure PersistedConfig where
  default_model : String
  max_tokens : Nat
  default_output : String
  templates : List (String × String)
deriving DecidableEq

/-- The defaults `Config._load_config` synthesizes when no file is loaded. -/
def default_config : PersistedConfig :=
  ⟨"claude-3-sonnet-20240229", 4000, "claude.md",
   [("fastapi", "FastAPI project with Pydantic models"),
    ("django", "Django project with REST framework"),
    ("flask", "Flask web application"),
    ("general", "General Python project")]⟩

/-- State of the configuration file at startup: absent, present but failing
to load (`json.load` raised), or present with parsed content. -/
inductive ConfigFileState where
  | absent : ConfigFileState
  | unreadable : ConfigFileState
  | present : PersistedConfig → ConfigFileState

/-- `Config._load_config`: the file content when it exists and parses,
otherwise the synthesized defaults. -/
def load_config : ConfigFileState → PersistedConfig
  | .present c => c
  | _ => default_config

/-- Filesystem effects of a config operation: whether the config directory
was created and what, if anything, was written to the config file. -/
structure ConfigFsEffects where
  createdDir : Bool
  wroteFile : Option PersistedConfig
deriving DecidableEq

/-- `Config.__init__`: creates the config directory (`mkdir(exist_ok=True)`)
and loads the config; it never writes the config file. -/
def config_init (fs : ConfigFileState) : PersistedConfig × ConfigFsEffects :=
  (load_config fs, ⟨true, none⟩)

/-- `Config.save_config`: the only operation that writes the file. -/
def save_config (c : PersistedConfig) : ConfigFsEffects :=
  ⟨false, some c⟩

/-- `Config.get_template`: the stored text for `name`, else the text stored
under `"general"`, else `""` (`templates.get(name, templates.get("general",
""))`); `templates` is the config mapping, `[]` when the key is absent. -/
def get_template (templates : List (String × String)) (name : String) : String :=
  match templates.lookup name with
  | some t => t
  | none => (templates.lookup "general").getD ""

/-! ## Helper lemmas -/

/-- `find?` returns the element at the first index where the predicate holds. -/
theorem find?_first {α : Type} (p : α → Bool) (l : List α) :
    ∀ (i : Nat) (hi : i < l.length),
      p (l.get ⟨i, hi⟩) = true →
      (∀ (j : Nat) (hj : j < l.length), j < i → p (l.get ⟨j, hj⟩) = false) →
      l.find? p = some (l.get ⟨i, hi⟩) := by
  induction l with
  | nil => intro i hi; simp at hi
  | cons a t ih =>
    intro i hi hp hmin
    cases i with
    | zero =>
      exact List.find?_cons_of_pos t (by simpa using hp)
    | succ n =>
      have ha : p a = false := hmin 0 (by simp) (Nat.succ_pos n)
      rw [List.find?_cons_of_neg t (by simp [ha])]
      exact ih n (Nat.lt_of_succ_lt_succ hi) hp
        (fun j hj hjn => hmin (j + 1) (Nat.succ_lt_succ hj) (Nat.succ_lt_succ hjn))

/-- Branch equation: the first catalog identifier present wins. -/
theorem get_best_eq_of_find (catalog available : List String) (m : String)
    (hfind : catalog.find? (fun m => available.contains m) = some m) :
    get_best_available_model_from catalog available = some m := by
  unfold get_best_available_model_from
  rw [hfind]

/-- Branch equation: keyword fallback when no catalog identifier is present. -/
theorem get_best_eq_of_filter (catalog available : List String) (c : String) (cs : List String)
    (hfind : catalog.find? (fun m => available.contains m) = none)
    (hf : available.filter looks_suitable = c :: cs) :
    get_best_available_model_from catalog available = some c := by
  unfold get_best_available_model_from
  rw [hfind, hf]

/-- Branch equation: last resort is the first server-reported identifier. -/
theorem get_best_eq_last (catalog available : List String)
    (hfind : catalog.find? (fun m => available.contains m) = none)
    (hf : available.filter looks_suitable = []) :
    get_best_available_model_from catalog available = available.head? := by
  unfold get_best_available_model_from
  rw [hfind, hf]
  cases available with
  | nil => rfl
  | cons a as => rfl

/-- With nothing installed the selection yields none. -/
theorem get_best_nil (catalog : List String) :
    get_best_available_model_from catalog [] = none := by
  have hfind : catalog.find? (fun m => List.contains [] m) = none :=
    List.find?_eq_none.mpr (by intro x hx; simp)
  rw [get_best_eq_last catalog [] hfind rfl]
  rfl

end ClaudeSynth

namespace ClaudeSynth

/-! ## Claim theorems -/

/-- Claim C1: for every installed set S (modelled as the server-reported list),
`get_best_available_model` returns the first catalog identifier, in declared
preference order, that is in S; failing that, some member of S whose
identifier contains a coding keyword case-insensitively; failing that, the
first member of S in server order; and it returns none iff S is empty.  In
particular, with catalog `["alpha-coder", "beta-model"]` and
S = `{"beta-model", "gamma"}` it returns `"beta-model"`. -/
theorem C1_select_best_model (catalog available : List String) :
    (∀ (i : Nat) (hi : i < catalog.length),
        available.contains (catalog.get ⟨i, hi⟩) = true →
        (∀ (j : Nat) (hj : j < catalog.length), j < i →
            available.contains (catalog.get ⟨j, hj⟩) = false) →
        get_best_available_model_from catalog available = some (catalog.get ⟨i, hi⟩))
    ∧ ((∀ c ∈ catalog, available.contains c = false) →
        (∃ m ∈ available, looks_suitable m = true) →
        ∃ m, get_best_available_model_from catalog available = some m ∧
          m ∈ available ∧ looks_suitable m = true)
    ∧ ((∀ c ∈ catalog, available.contains c = false) →
        (∀ m ∈ available, looks_suitable m = false) →
        get_best_available_model_from catalog available = available.head?)
    ∧ (get_best_available_model_from catalog available = none ↔ available = [])
    ∧ get_best_available_model available
        = get_best_available_model_from RECOMMENDED_MODELS_keys available
    ∧ get_best_available_model_from ["alpha-coder", "beta-model"] ["beta-model", "gamma"]
        = some "beta-model" := by
  refine ⟨?_, ?_, ?_, ?_, rfl, by decide⟩
  · intro i hi hp hmin
    exact get_best_eq_of_find catalog available _
      (find?_first (fun m => available.contains m) catalog i hi hp hmin)
  · intro hnone hex
    obtain ⟨m, hm, hsuit⟩ := hex
    have hfind : catalog.find? (fun m => available.contains m) = none :=
      List.find?_eq_none.mpr (by intro c hc; simpa using hnone c hc)
    have hmem : m ∈ available.filter looks_suitable := List.mem_filter.mpr ⟨hm, hsuit⟩
    cases hf : available.filter looks_suitable with
    | nil => rw [hf] at hmem; simp at hmem
    | cons c cs =>
      refine ⟨c, get_best_eq_of_filter catalog available c cs hfind hf, ?_⟩
      have hc : c ∈ available.filter looks_suitable := by
        rw [hf]; exact List.mem_cons_self c cs
      exact ⟨(List.mem_filter.mp hc).1, (List.mem_filter.mp hc).2⟩
  · intro hnone hunsuit
    have hfind : catalog.find? (fun m => available.contains m) = none :=
      List.find?_eq_none.mpr (by intro c hc; simpa using hnone c hc)
    have hf : available.filter looks_suitable = [] :=
      List.filter_eq_nil_iff.mpr (by intro a ha; simp [hunsuit a ha])
    exact get_best_eq_last catalog available hfind hf
  · constructor
    · intro h
      cases hfind : catalog.find? (fun m => available.contains m) with
      | some m =>
        rw [get_best_eq_of_find catalog available m hfind] at h
        exact Option.noConfusion h
      | none =>
        cases hf : available.filter looks_suitable with
        | cons c cs =>
          rw [get_best_eq_of_filter catalog available c cs hfind hf] at h
          exact Option.noConfusion h
        | nil =>
          rw [get_best_eq_last catalog available hfind hf] at h
          cases available with
          | nil => rfl
          | cons a as => exact Option.noConfusion h
    · intro h
      subst h
      exact get_best_nil catalog

/-- Witness for C1: the concrete scenario of the spec, settled by the first
conjunct of the claim theorem at index 1 of the hypothetical catalog. -/
theorem C1_select_best_model_witness :
    get_best_available_model_from ["alpha-coder", "beta-model"] ["beta-model", "gamma"]
      = some "beta-model" :=
  (C1_select_best_model ["alpha-coder", "beta-model"] ["beta-model", "gamma"]).1 1
    (by decide) (by decide)
    (fun j hj hj1 => by
      have hz : j = 0 := Nat.lt_one_iff.mp hj1
      subst hz
      rfl)

/-- Claim C2, counterexample: a 200 response whose `response` field is the
empty string makes `generate_context_simple` hand back `""`, which does not
start with `"Error:"`, so the simple-mode command reports success and writes
an empty, unexamined string to the output file — refuting the claim that a
successful completion never hands over an empty string. -/
theorem C2_counterexample :
    generate_context_simple (.ok 200 (some "")) = ""
    ∧ (generate_context_simple_mode (.ok 200 (some ""))).success = true
    ∧ (generate_context_simple_mode (.ok 200 (some ""))).written = some "" := by
  refine ⟨rfl, ?_, ?_⟩ <;> rfl

/-- Claim C2 as amended: the simple-mode generation either fails with an
error-prefixed message and writes nothing, or reports success and writes the
backend response string verbatim — a response that may be empty; emptiness is
never examined. -/
theorem C2_generate_amended (outcome : HttpOutcome) :
    ((generate_context_simple_mode outcome).success = false
      ∧ (generate_context_simple_mode outcome).written = none
      ∧ strStarts (generate_context_simple outcome) "Error:" = true)
    ∨ ((generate_context_simple_mode outcome).success = true
      ∧ (generate_context_simple_mode outcome).written = some (generate_context_simple outcome)
      ∧ strStarts (generate_context_simple outcome) "Error:" = false) := by
  cases hb : strStarts (generate_context_simple outcome) "Error:" with
  | true =>
    left
    refine ⟨?_, ?_, rfl⟩ <;> simp [generate_context_simple_mode, hb]
  | false =>
    right
    refine ⟨?_, ?_, rfl⟩ <;> simp [generate_context_simple_mode, hb]

/-- Claim C3: with the ANTHROPIC_API_KEY environment variable unset, remote
activation deterministically takes the missing-credential path: the function
returns `None` (a failure), no backend object is constructed (hence no
network call is attempted), the active-backend slot and the configured flag
are exactly as before, and the failure message names the missing variable. -/
theorem C3_missing_credential (model_name : String) (max_tokens : Nat) (s : DspyState) :
    (setup_anthropic_model none model_name max_tokens s).result = none
    ∧ (setup_anthropic_model none model_name max_tokens s).constructed = none
    ∧ (setup_anthropic_model none model_name max_tokens s).state = s
    ∧ (setup_anthropic_model none model_name max_tokens s).state.configured = s.configured
    ∧ (setup_anthropic_model none model_name max_tokens s).prints =
        ["❌ Anthropic setup failed: ANTHROPIC_API_KEY environment variable required"] :=
  ⟨rfl, rfl, rfl, rfl, rfl⟩

/-- Every `setup_model` call either succeeds (setting the configured flag) or
fails leaving the state exactly as it was. -/
theorem setup_model_cases (serverReachable : Bool) (available : List String) (ctorOk : Bool)
    (model_name : Option String) (max_tokens : Nat) (s : DspyState) :
    ((setup_model serverReachable available ctorOk model_name max_tokens s).ok = true
      ∧ (setup_model serverReachable available ctorOk model_name max_tokens s).state.configured
          = true)
    ∨ ((setup_model serverReachable available ctorOk model_name max_tokens s).ok = false
      ∧ (setup_model serverReachable available ctorOk model_name max_tokens s).state = s) := by
  unfold setup_model
  split
  · exact Or.inr ⟨rfl, rfl⟩
  · split
    · exact Or.inr ⟨rfl, rfl⟩
    · split
      · exact Or.inr ⟨rfl, rfl⟩
      · split
        · exact Or.inl ⟨rfl, rfl⟩
        · exact Or.inr ⟨rfl, rfl⟩

/-- Claim C4: when the health check fails, local activation fails (with the
server-unreachable diagnostic) and leaves the prior state untouched; and in
general every unsuccessful `setup_model` attempt leaves the prior active
backend and configured flag exactly as they were — all-or-nothing. -/
theorem C4_activation_all_or_nothing (serverReachable : Bool) (available : List String)
    (ctorOk : Bool) (model_name : Option String) (max_tokens : Nat) (s : DspyState) :
    (serverReachable = false →
      (setup_model serverReachable available ctorOk model_name max_tokens s).ok = false
      ∧ (setup_model serverReachable available ctorOk model_name max_tokens s).state = s
      ∧ (setup_model serverReachable available ctorOk model_name max_tokens s).prints =
          ["❌ Ollama is not running. Start it with: ollama serve"])
    ∧ ((setup_model serverReachable available ctorOk model_name max_tokens s).ok = false →
      (setup_model serverReachable available ctorOk model_name max_tokens s).state = s) := by
  constructor
  · intro h
    subst h
    exact ⟨rfl, rfl, rfl⟩
  · intro h
    rcases setup_model_cases serverReachable available ctorOk model_name max_tokens s with
      ⟨hok, _⟩ | ⟨_, hstate⟩
    · rw [h] at hok
      exact Bool.noConfusion hok
    · exact hstate

/-- Witness for C4: with the server unreachable, a concrete activation
attempt fails and leaves a concrete prior state unchanged. -/
theorem C4_witness :
    (setup_model false ["deepseek-coder:6.7b"] true none 4000 ⟨false, none⟩).ok = false
    ∧ (setup_model false ["deepseek-coder:6.7b"] true none 4000 ⟨false, none⟩).state
        = ⟨false, none⟩ :=
  ⟨((C4_activation_all_or_nothing false ["deepseek-coder:6.7b"] true none 4000
      ⟨false, none⟩).1 rfl).1,
   (C4_activation_all_or_nothing false ["deepseek-coder:6.7b"] true none 4000
      ⟨false, none⟩).2
     (((C4_activation_all_or_nothing false ["deepseek-coder:6.7b"] true none 4000
        ⟨false, none⟩).1 rfl).1)⟩

/-- Claim C5, counterexample: the DSPy-integration local activation path
(`_setup_ollama_model`) with no model name never consults the prober — with
nothing installed, where `select_best_model()` yields none, it still
activates the fixed default model instead of failing with NoModelAvailable. -/
theorem C5_counterexample :
    get_best_available_model [] = none
    ∧ (dspy_setup_ollama_model none 4000 true ⟨false, none⟩).result = true
    ∧ (dspy_setup_ollama_model none 4000 true ⟨false, none⟩).chosenModel
        = "deepseek-coder:6.7b" :=
  ⟨get_best_nil RECOMMENDED_MODELS_keys, rfl, rfl⟩

/-- Claim C5 as amended: in the Ollama-support configurator
(`OllamaContextManager.setup_model`) an activation with no model name
consults `get_best_available_model`, and when that yields none the attempt
fails, leaves the state unchanged, and prints an install instruction for
every catalog entry; the DSPy-integration path (`_setup_ollama_model`)
instead substitutes the fixed default model name without consulting the
prober at all. -/
theorem C5_no_model_available (available : List String) (ctorOk : Bool)
    (max_tokens : Nat) (s : DspyState) :
    (get_best_available_model available = none →
      (setup_model true available ctorOk none max_tokens s).ok = false
      ∧ (setup_model true available ctorOk none max_tokens s).state = s
      ∧ ∀ p ∈ RECOMMENDED_MODELS,
          install_line p ∈ (setup_model true available ctorOk none max_tokens s).prints)
    ∧ (dspy_setup_ollama_model none max_tokens ctorOk s).chosenModel
        = "deepseek-coder:6.7b" := by
  constructor
  · intro h
    have hset : setup_model true available ctorOk none max_tokens s =
        ⟨false, s, "❌ No suitable Ollama models found" :: "💡 Install a recommended model:"
          :: RECOMMENDED_MODELS.map install_line⟩ := by
      unfold setup_model
      simp [py_falsy, h]
    refine ⟨by rw [hset], by rw [hset], ?_⟩
    intro p hp
    rw [hset]
    exact List.mem_cons_of_mem _ (List.mem_cons_of_mem _ (List.mem_map_of_mem install_line hp))
  · cases ctorOk with
    | false => rfl
    | true => rfl

/-- Witness for C5: with an empty installed set, the Ollama-support
activation with no model name fails and leaves a concrete state unchanged. -/
theorem C5_no_model_available_witness :
    (setup_model true [] true none 4000 ⟨false, none⟩).ok = false
    ∧ (setup_model true [] true none 4000 ⟨false, none⟩).state = ⟨false, none⟩ :=
  ⟨((C5_no_model_available [] true 4000 ⟨false, none⟩).1
      (get_best_nil RECOMMENDED_MODELS_keys)).1,
   ((C5_no_model_available [] true 4000 ⟨false, none⟩).1
      (get_best_nil RECOMMENDED_MODELS_keys)).2.1⟩

/-- Claim C6: in both generation modes of the generate command, the output
file is written only after the backend generation call has fully succeeded —
a failed setup or a failed or error-returning generation call writes
nothing, and any written content is exactly a successfully generated
result. -/
theorem C6_no_partial_output (setupOk : Bool) (gen : Except String GenerationResult)
    (outcome : HttpOutcome) :
    ((generate_context_dspy_mode setupOk gen).1 = false →
        (generate_context_dspy_mode setupOk gen).2 = none)
    ∧ (∀ e, gen = .error e → (generate_context_dspy_mode setupOk gen).2 = none)
    ∧ (∀ r, (generate_context_dspy_mode setupOk gen).2 = some r →
        setupOk = true ∧ gen = .ok ⟨r⟩)
    ∧ ((generate_context_simple_mode outcome).success = false →
        (generate_context_simple_mode outcome).written = none)
    ∧ (strStarts (generate_context_simple outcome) "Error:" = true →
        (generate_context_simple_mode outcome).written = none) := by
  refine ⟨?_, ?_, ?_, ?_, ?_⟩
  · intro h
    cases setupOk with
    | false => rfl
    | true =>
      cases gen with
      | error e => rfl
      | ok r => exact Bool.noConfusion h
  · intro e he
    subst he
    cases setupOk with
    | false => rfl
    | true => rfl
  · intro r h
    cases setupOk with
    | false => exact Option.noConfusion h
    | true =>
      cases gen with
      | error e => exact Option.noConfusion h
      | ok g =>
        have : g.markdown_context = r := Option.some.inj h
        exact ⟨rfl, by rw [← this]⟩
  · intro h
    unfold generate_context_simple_mode at h ⊢
    cases hb : strStarts (generate_context_simple outcome) "Error:" with
    | true => simp [hb]
    | false => simp [hb] at h
  · intro h
    unfold generate_context_simple_mode
    simp [h]

/-- Witness for C6: a concrete failed DSPy-mode generation and a concrete
non-200 simple-mode response both write nothing. -/
theorem C6_witness :
    (generate_context_dspy_mode true (.error "timeout")).2 = none
    ∧ (generate_context_simple_mode (.ok 500 none)).written = none :=
  ⟨(C6_no_partial_output true (.error "timeout") (.ok 500 none)).2.1 "timeout" rfl,
   (C6_no_partial_output true (.error "timeout") (.ok 500 none)).2.2.2.2 (by decide)⟩

/-- Claim C7 (code bug): the quit token and KeyboardInterrupt do exit the
loop, and a failed generation only continues it — but end-of-input does NOT
terminate the loop: `input()` raises EOFError, which falls into the generic
exception handler, so the iteration continues and the loop never exits on
end-of-input, contradicting the claimed termination condition. -/
theorem C7_interactive_loop (raw e : String) (gen : Except String GenerationResult) :
    interactive_iteration .eofEvent gen = .continueLoop
    ∧ interactive_iteration (.line "quit") gen = .exitLoop
    ∧ interactive_iteration .interrupt gen = .exitLoop
    ∧ (pyLower (pyStrip raw) ≠ "quit" →
        interactive_iteration (.line raw) (.error e) = .continueLoop) := by
  refine ⟨rfl, rfl, rfl, ?_⟩
  intro hq
  have h1 : (pyLower (pyStrip raw) == "quit") = false := by
    cases hb : pyLower (pyStrip raw) == "quit" with
    | false => rfl
    | true => exact absurd (by simpa using hb) hq
  simp [interactive_iteration, h1]

/-- Witness for C7: a concrete non-quit task with a failed generation leaves
the loop running. -/
theorem C7_interactive_loop_witness :
    interactive_iteration (.line "Add auth") (.error "timeout") = .continueLoop :=
  (C7_interactive_loop "Add auth" "timeout" (.error "timeout")).2.2.2 (by decide)

/-- Claim C8, counterexample: the synthesized default templates mapping has
four entries — fastapi, django, flask and general — not the single
`general` entry the claim describes as the exact default. -/
theorem C8_counterexample :
    (config_init .absent).1.templates.map Prod.fst = ["fastapi", "django", "flask", "general"]
    ∧ (config_init .absent).1.templates.length = 4 :=
  ⟨rfl, rfl⟩

/-- Claim C8 as amended: with the config file absent, the synthesized
in-memory defaults are default_model "claude-3-sonnet-20240229", max_tokens
4000, default_output "claude.md", and a four-entry templates mapping whose
"general" entry is the non-empty string "General Python project"; startup
never writes the config file — only an explicit save does. -/
theorem C8_defaults :
    (config_init .absent).1.default_model = "claude-3-sonnet-20240229"
    ∧ (config_init .absent).1.max_tokens = 4000
    ∧ (config_init .absent).1.default_output = "claude.md"
    ∧ (config_init .absent).1.templates.lookup "general" = some "General Python project"
    ∧ 0 < "General Python project".length
    ∧ (config_init .absent).2.wroteFile = none
    ∧ (save_config (config_init .absent).1).wroteFile = some (config_init .absent).1 := by
  refine ⟨rfl, rfl, rfl, by decide, by decide, rfl, rfl⟩

/-- Claim C9: the prober is total at its public interface — reachability is
`false` on an exception and on every non-200 status, and the model listing
is `[]` on an exception, on every non-200 status, and on a 200 response
whose body fails to parse; neither operation can raise (both are total
functions of the request outcome). -/
theorem C9_prober_total (st : Nat) (body : Option (List String)) :
    check_ollama_available .exn = false
    ∧ (st ≠ 200 → check_ollama_available (.ok st body) = false)
    ∧ list_available_models .exn = []
    ∧ (st ≠ 200 → list_available_models (.ok st body) = [])
    ∧ list_available_models (.ok st none) = [] := by
  refine ⟨rfl, ?_, rfl, ?_, ?_⟩
  · intro h
    unfold check_ollama_available
    simp [h]
  · intro h
    unfold list_available_models
    simp [h]
  · cases hb : st == 200 with
    | true => simp [list_available_models, hb]
    | false => simp [list_available_models, hb]

/-- Witness for C9: a concrete 500 status reports unreachable and an empty
listing. -/
theorem C9_prober_total_witness :
    check_ollama_available (.ok 500 (some ["m"])) = false
    ∧ list_available_models (.ok 500 (some ["m"])) = [] :=
  ⟨(C9_prober_total 500 (some ["m"])).2.1 (by decide),
   (C9_prober_total 500 (some ["m"])).2.2.2.1 (by decide)⟩

/-- Claim C10: `get_template` returns the text stored under the requested
name when present, else the text stored under "general", else the empty
string; it is a total function of the mapping and never fails. -/
theorem C10_get_template (templates : List (String × String)) (name : String) :
    (∀ t, templates.lookup name = some t → get_template templates name = t)
    ∧ (templates.lookup name = none →
        ∀ g, templates.lookup "general" = some g → get_template templates name = g)
    ∧ (templates.lookup name = none → templates.lookup "general" = none →
        get_template templates name = "") := by
  refine ⟨?_, ?_, ?_⟩
  · intro t h
    unfold get_template
    rw [h]
  · intro h g hg
    unfold get_template
    rw [h, hg]
    rfl
  · intro h hg
    unfold get_template
    rw [h, hg]
    rfl

/-- Witness for C10: concrete present, fallback, and doubly-missing cases. -/
theorem C10_get_template_witness :
    get_template [("fastapi", "FastAPI project with Pydantic models"),
        ("general", "General Python project")] "fastapi"
      = "FastAPI project with Pydantic models"
    ∧ get_template [("general", "General Python project")] "missing"
      = "General Python project"
    ∧ get_template [] "missing" = "" :=
  ⟨(C10_get_template [("fastapi", "FastAPI project with Pydantic models"),
      ("general", "General Python project")] "fastapi").1
      "FastAPI project with Pydantic models" rfl,
   (C10_get_template [("general", "General Python project")] "missing").2.1 rfl
      "General Python project" rfl,
   (C10_get_template [] "missing").2.2 rfl rfl⟩

end ClaudeSynth
